import Mathlib

/-!
# Verification of the `wgpu-text` brush layer (`src/brush.rs`)

A shallow embedding of the repository's single source file `src/brush.rs`.
The file orchestrates an external glyph cache (`glyph_brush::GlyphBrush`)
and a render pipeline (`crate::pipeline::Pipeline`).

Modelling choices:

* Texture dimensions are `u32` in the source; only comparisons and record
  updates are performed on them, so they are embedded as `Nat`.
* `glyph_brush` is a third-party crate: its `process_queued` is embedded as an
  oracle parameter `ProcessOracle` whose result may depend on the cache's
  current texture dimensions and on the queued sections (the only state that
  changes between the retries of `draw_queued`).  On success the pending queue
  is cleared (the sections were consumed by the processing pass).
* `crate::pipeline` is part of this repository but its source is not provided;
  the `Pipeline` operations are modelled from the spec (each carries a
  `Modelled from the spec:` comment).
* Sections, vertices, fonts, command buffers and GPU handles are opaque to
  the brush layer and are embedded as plain data.
-/

/-- A caller-owned text section; `brush.rs` never inspects its fields, so it
is embedded as an opaque identifier. -/
abbrev TextSection : Type := Nat

/-- A GPU-ready vertex (`crate::pipeline::Vertex`); opaque to the brush. -/
abbrev Vertex : Type := Nat

/-- Embeds `wgpu::Device`, reduced to the only datum `brush.rs` reads from it:
`device.limits().max_texture_dimension_2d`. -/
structure Device where
  max_texture_dimension_2d : Nat
deriving DecidableEq

/-- Embeds `wgpu::TextureView`: opaque handle. -/
abbrev TextureView : Type := Unit

/-- Embeds `wgpu::Queue`: opaque handle. -/
abbrev GpuQueue : Type := Unit

/-- Embeds `glyph_brush::BrushAction`: result of a successful processing pass. -/
inductive BrushAction where
  | Draw (vertices : List Vertex)
  | ReDraw
deriving DecidableEq

/-- Embeds `glyph_brush::BrushError`: the only error `process_queued` can report. -/
inductive BrushErr where
  | TextureTooSmall (suggested : Nat × Nat)
deriving DecidableEq

/-- The glyph-cache state visible to `brush.rs`: the atlas texture dimensions
and the pending (queued) sections.  Fonts are carried but never inspected. -/
structure GlyphBrush (F : Type) where
  fonts : List F
  texDims : Nat × Nat
  queued : List TextSection

/-- Embeds `glyph_brush::GlyphBrush::texture_dimensions`. -/
def GlyphBrush.texture_dimensions (g : GlyphBrush F) : Nat × Nat :=
  g.texDims

/-- Embeds `glyph_brush::GlyphBrush::resize_texture`. -/
def GlyphBrush.resize_texture (g : GlyphBrush F) (width height : Nat) :
    GlyphBrush F :=
  { g with texDims := (width, height) }

/-- Embeds `glyph_brush::GlyphBrush::queue`: appends a section to the pending list. -/
def GlyphBrush.queueSection (g : GlyphBrush F) (s : TextSection) :
    GlyphBrush F :=
  { g with queued := g.queued ++ [s] }

/-- The behaviour of the external `glyph_brush::GlyphBrush::process_queued`:
given the current atlas dimensions and the pending sections it either returns
a `BrushAction` or reports `TextureTooSmall` with suggested dimensions. -/
def ProcessOracle : Type :=
  Nat × Nat → List TextSection → Except BrushErr BrushAction

/-- Modelled from the spec: the `RenderTarget` (`crate::pipeline::Pipeline`,
whose source file is not provided).  It owns a GPU texture mirroring the
atlas (of known dimensions), a vertex buffer, and surface dimensions. -/
structure Pipeline where
  texDims : Nat × Nat
  vertexBuffer : List Vertex
  surfaceDims : Nat × Nat
deriving DecidableEq

/-- Modelled from the spec: `Pipeline::new(device, render_format,
initial_texture_dims, initial_surface_dims)` creates a render target whose
cache texture has the given dimensions and whose vertex buffer is empty. -/
def Pipeline.new (_device : Device) (_render_format : Nat)
    (tex_dims : Nat × Nat) (surface_dims : Nat × Nat) : Pipeline :=
  { texDims := tex_dims, vertexBuffer := [], surfaceDims := surface_dims }

/-- Modelled from the spec: `Pipeline::resize_texture(device, width, height)`
performs a full resize of the mirrored cache texture. -/
def Pipeline.resize_texture (p : Pipeline) (_device : Device)
    (width height : Nat) : Pipeline :=
  { p with texDims := (width, height) }

/-- Modelled from the spec: `Pipeline::update(vertices, device, queue)` fully
replaces the vertex buffer contents. -/
def Pipeline.update (p : Pipeline) (vertices : List Vertex) (_device : Device)
    (_queue : GpuQueue) : Pipeline :=
  { p with vertexBuffer := vertices }

/-- Modelled from the spec: `Pipeline::resize(width, height, queue)` updates
the output-surface (projection/viewport) dimensions only.  The source takes
`f32` dimensions; only passed through, they are embedded as `Nat`. -/
def Pipeline.resize (p : Pipeline) (width height : Nat) (_queue : GpuQueue) :
    Pipeline :=
  { p with surfaceDims := (width, height) }

/-- An opaque command recording; modelled from the spec:
`Pipeline::draw(device, view)` issues the draw against the current vertex
buffer and returns a command buffer for the caller to submit. -/
structure CommandBuffer where
  drawn : List Vertex
deriving DecidableEq

/-- Modelled from the spec: `Pipeline::draw(device, view)`. -/
def Pipeline.draw (p : Pipeline) (_device : Device) (_view : TextureView) :
    CommandBuffer :=
  { drawn := p.vertexBuffer }

/-- Embeds `TextBrush`: owns one glyph cache (`inner`) and one `Pipeline`
(`src/brush.rs`, lines 14-17). -/
structure TextBrush (F : Type) where
  inner : GlyphBrush F
  pipeline : Pipeline

/-- Embeds `TextBrush::queue` (`src/brush.rs`, lines 25-30): forwards the section to
the glyph cache's pending queue; no GPU work occurs. -/
def TextBrush.queue (b : TextBrush F) (s : TextSection) : TextBrush F :=
  { b with inner := b.inner.queueSection s }

/-- The resize-target computation of `draw_queued`'s error arm
(`src/brush.rs`, lines 57-66): clamp to `(cap, cap)` exactly when the
suggestion exceeds the cap in some dimension while the current atlas is still
below the cap in some dimension; otherwise adopt the suggestion verbatim. -/
def chooseTarget (suggested : Nat × Nat) (max_image_dimension : Nat)
    (current : Nat × Nat) : Nat × Nat :=
  if (suggested.1 > max_image_dimension ∨ suggested.2 > max_image_dimension)
      ∧ (current.1 < max_image_dimension ∨ current.2 < max_image_dimension)
  then (max_image_dimension, max_image_dimension)
  else suggested

/-- The retry loop of `TextBrush::draw_queued` (`src/brush.rs`, lines 41-71),
with explicit fuel standing for the number of loop iterations still allowed
(`none` = the loop did not exit within `fuel` iterations).  Each iteration
asks the oracle (`process_queued`); on success it breaks with the action (the
queue is consumed); on `TextureTooSmall` it resizes both the pipeline texture
and the glyph cache's atlas to `chooseTarget` and loops. -/
def processLoop (oracle : ProcessOracle) (device : Device) :
    Nat → GlyphBrush F → Pipeline →
      Option (BrushAction × GlyphBrush F × Pipeline)
  | 0, _, _ => none
  | fuel + 1, inner, pipeline =>
    match oracle inner.texture_dimensions inner.queued with
    | .ok action => some (action, { inner with queued := [] }, pipeline)
    | .error (.TextureTooSmall suggested) =>
      let max_image_dimension := device.max_texture_dimension_2d
      let wh := chooseTarget suggested max_image_dimension
        inner.texture_dimensions
      processLoop oracle device fuel
        (inner.resize_texture wh.1 wh.2)
        (pipeline.resize_texture device wh.1 wh.2)

/-- Embeds `TextBrush::draw_queued` (`src/brush.rs`, lines 33-79): run the retry
loop; then on `Draw(vertices)` replace the pipeline's vertex buffer, on
`ReDraw` leave it untouched; finally issue the draw and return the command
buffer (paired with the updated brush state). -/
def TextBrush.draw_queued (oracle : ProcessOracle) (b : TextBrush F)
    (device : Device) (view : TextureView) (queue : GpuQueue) (fuel : Nat) :
    Option (CommandBuffer × TextBrush F) :=
  match processLoop oracle device fuel b.inner b.pipeline with
  | none => none
  | some (action, inner, pipeline) =>
    let pipeline :=
      match action with
      | .Draw vertices => pipeline.update vertices device queue
      | .ReDraw => pipeline
    some (pipeline.draw device view, { inner := inner, pipeline := pipeline })

/-- Embeds `TextBrush::resize` (`src/brush.rs`, lines 85-87): pure delegation to
`Pipeline::resize`. -/
def TextBrush.resize (b : TextBrush F) (width height : Nat)
    (queue : GpuQueue) : TextBrush F :=
  { b with pipeline := b.pipeline.resize width height queue }

/-- Embeds `ab_glyph::FontRef`: opaque parsed font. -/
abbrev FontRef : Type := Nat

/-- Embeds `ab_glyph::InvalidFont`: the font-parsing error value. -/
structure InvalidFont where
deriving DecidableEq

/-- The behaviour of the external `ab_glyph::FontRef::try_from_slice`:
parsing raw font bytes either yields a font or fails with `InvalidFont`. -/
def FontParser : Type := List UInt8 → Except InvalidFont FontRef

/-- Embeds `glyph_brush::GlyphBrushBuilder`: accumulated construction parameters;
only the font list and the initial cache dimensions are visible to this
layer (`initial_cache_size` defaults to `(256, 256)` in `glyph_brush`). -/
structure GlyphBrushBuilder (F : Type) where
  fonts : List F
  initialCacheSize : Nat × Nat

/-- Embeds `glyph_brush::GlyphBrushBuilder::using_fonts`. -/
def GlyphBrushBuilder.using_fonts (fonts : List F) : GlyphBrushBuilder F :=
  { fonts := fonts, initialCacheSize := (256, 256) }

/-- Embeds `glyph_brush::GlyphBrushBuilder::build`: the initial atlas has the
configured cache dimensions and an empty pending queue. -/
def GlyphBrushBuilder.buildCache (b : GlyphBrushBuilder F) : GlyphBrush F :=
  { fonts := b.fonts, texDims := b.initialCacheSize, queued := [] }

/-- Embeds `BrushBuilder` (`src/brush.rs`, lines 91-93). -/
structure BrushBuilder (F : Type) where
  inner : GlyphBrushBuilder F

/-- Embeds `BrushBuilder::using_fonts` (`src/brush.rs`, lines 117-121). -/
def BrushBuilder.using_fonts (fonts : List F) : BrushBuilder F :=
  { inner := GlyphBrushBuilder.using_fonts fonts }

/-- Embeds `BrushBuilder::using_font` (`src/brush.rs`, lines 98-100). -/
def BrushBuilder.using_font (font : F) : BrushBuilder F :=
  BrushBuilder.using_fonts [font]

/-- Embeds `BrushBuilder::using_font_bytes` (`src/brush.rs`, lines 104-107):
`let font = FontRef::try_from_slice(data)?;
Ok(BrushBuilder::using_fonts(vec![font]))`. -/
def BrushBuilder.using_font_bytes (try_from_slice : FontParser)
    (data : List UInt8) : Except InvalidFont (BrushBuilder FontRef) :=
  match try_from_slice data with
  | .error e => .error e
  | .ok font => .ok (BrushBuilder.using_fonts [font])

/-- Embeds `BrushBuilder::using_font_bytes_vec` (`src/brush.rs`, lines 111-114):
identical body to `using_font_bytes`. -/
def BrushBuilder.using_font_bytes_vec (try_from_slice : FontParser)
    (data : List UInt8) : Except InvalidFont (BrushBuilder FontRef) :=
  match try_from_slice data with
  | .error e => .error e
  | .ok font => .ok (BrushBuilder.using_fonts [font])

/-- Embeds `BrushBuilder::build` (`src/brush.rs`, lines 128-143): builds the glyph
cache, then a `Pipeline` whose initial texture dimensions are the cache's
`texture_dimensions()`. -/
def BrushBuilder.build (b : BrushBuilder F) (device : Device)
    (render_format : Nat) (width height : Nat) : TextBrush F :=
  let inner := b.inner.buildCache
  let pipeline := Pipeline.new device render_format
    inner.texture_dimensions (width, height)
  { inner := inner, pipeline := pipeline }

/-! ## Derived notions used by the verification -/

/-- Componentwise order on texture dimensions. -/
def dimLe (a b : Nat × Nat) : Prop :=
  a.1 ≤ b.1 ∧ a.2 ≤ b.2

/-- The successive `(width, height)` targets passed to `resize_texture` by
the retry loop of `draw_queued` (`src/brush.rs`, lines 67-68), for as long as
the oracle keeps reporting `TextureTooSmall`; mirrors `processLoop` step for
step (the pending queue is unchanged by a retry, so only the cache state is
threaded through). -/
def retryTargets (oracle : ProcessOracle) (device : Device) :
    Nat → GlyphBrush F → List (Nat × Nat)
  | 0, _ => []
  | fuel + 1, inner =>
    match oracle inner.texture_dimensions inner.queued with
    | .ok _ => []
    | .error (.TextureTooSmall suggested) =>
      let wh := chooseTarget suggested device.max_texture_dimension_2d
        inner.texture_dimensions
      wh :: retryTargets oracle device fuel (inner.resize_texture wh.1 wh.2)

/-- The retry loop of some `draw_queued` call exits within a finite number of
iterations, i.e. the call returns. -/
def DrawTerminates (oracle : ProcessOracle) (b : TextBrush F)
    (device : Device) (view : TextureView) (queue : GpuQueue) : Prop :=
  ∃ fuel r, TextBrush.draw_queued oracle b device view queue fuel = some r

/-! ## Concrete instances used by witnesses and counterexamples -/

/-- A device with the common `8192` maximum 2D texture dimension. -/
def dev0 : Device := { max_texture_dimension_2d := 8192 }

/-- A brush with the default `(256, 256)` atlas and an empty queue. -/
def brush0 : TextBrush Nat :=
  { inner := { fonts := [], texDims := (256, 256), queued := [] },
    pipeline :=
      { texDims := (256, 256), vertexBuffer := [], surfaceDims := (800, 600) } }

/-- A brush whose atlas has already grown to the device ceiling `(8192, 8192)`
of `dev0`. -/
def brushAtCap : TextBrush Nat :=
  { inner := { fonts := [], texDims := (8192, 8192), queued := [] },
    pipeline :=
      { texDims := (8192, 8192), vertexBuffer := [],
        surfaceDims := (800, 600) } }

/-- A cache whose processing always succeeds with `ReDraw`. -/
def okOracle : ProcessOracle := fun _ _ => .ok .ReDraw

/-- A cache whose processing always succeeds with fresh vertices. -/
def drawOracle : ProcessOracle := fun _ _ => .ok (.Draw [1, 2])

/-- A cache that keeps reporting `TextureTooSmall` with the suggestion
`(9000, 9000)`, which the `dev0` hardware ceiling `8192` cannot accommodate. -/
def hugeOracle : ProcessOracle := fun _ _ =>
  .error (.TextureTooSmall (9000, 9000))

/-- A cache that reports `TextureTooSmall` suggesting doubled dimensions
until the total dimensions reach `1024`, then succeeds. -/
def doubleOracle : ProcessOracle := fun d _ =>
  if 1024 ≤ d.1 + d.2 then .ok .ReDraw
  else .error (.TextureTooSmall (2 * d.1, 2 * d.2))

/-- A cache that reports `TextureTooSmall` suggesting `(512, 512)` until the
total dimensions reach `1024`, then succeeds. -/
def growOracle : ProcessOracle := fun d _ =>
  if 1024 ≤ d.1 + d.2 then .ok .ReDraw
  else .error (.TextureTooSmall (512, 512))

/-- A font parser that accepts every byte slice. -/
def parseAlwaysOk : FontParser := fun _ => .ok 0

/-- A font parser that rejects every byte slice. -/
def parseAlwaysFail : FontParser := fun _ => .error {}

/-! ## C1: the resize-target computation -/

/-- C1: in `draw_queued`'s retry loop, when the cache suggests `(sw, sh)` and
the device cap is `cap`: if `sw > cap` or `sh > cap`, and additionally the
current atlas is below `cap` in width or in height, the chosen resize target
is `(cap, cap)`; in every other case it is exactly `(sw, sh)`.  In particular
`suggested = (20000, 20000)`, `cap = 8192`, atlas `(1024, 1024)` yields
`(8192, 8192)`, and `suggested = (4096, 2048)`, `cap = 8192` yields
`(4096, 2048)`. -/
theorem C1_resize_target (sw sh cap cw ch : Nat) :
    ((sw > cap ∨ sh > cap) → (cw < cap ∨ ch < cap) →
      chooseTarget (sw, sh) cap (cw, ch) = (cap, cap))
    ∧ (¬((sw > cap ∨ sh > cap) ∧ (cw < cap ∨ ch < cap)) →
      chooseTarget (sw, sh) cap (cw, ch) = (sw, sh))
    ∧ chooseTarget (20000, 20000) 8192 (1024, 1024) = (8192, 8192)
    ∧ chooseTarget (4096, 2048) 8192 (1024, 1024) = (4096, 2048) := by
  refine ⟨fun h1 h2 => ?_, fun h => ?_, by decide, by decide⟩
  · exact if_pos ⟨h1, h2⟩
  · exact if_neg h

/-- Witness for C1 at the two concrete inputs of the claim. -/
theorem C1_resize_target_witness :
    chooseTarget (20000, 20000) 8192 (1024, 1024) = (8192, 8192)
    ∧ chooseTarget (4096, 2048) 8192 (1024, 1024) = (4096, 2048) :=
  ⟨(C1_resize_target 20000 20000 8192 1024 1024).1
      (Or.inl (by decide)) (Or.inl (by decide)),
    (C1_resize_target 4096 2048 8192 1024 1024).2.1 (by decide)⟩

/-! ## C2: suggestion exceeding the cap with the atlas already at the cap -/

/-- C2 counterexample: with suggestion `(9000, 9000)`, cap `8192` and the
atlas already at `(8192, 8192)`, the chosen resize target is NOT the clamped
`(8192, 8192)` claimed by the spec (it is the suggestion, verbatim). -/
theorem C2_counterexample :
    chooseTarget (9000, 9000) 8192 (8192, 8192) ≠ (8192, 8192) := by
  decide

/-- C2 amended: if the suggestion still exceeds the device cap while the
current atlas is already at (or above) the cap in both dimensions, the clamp
condition fails and the iteration resizes with the suggestion `(sw, sh)`
verbatim — exceeding the cap — not with `(cap, cap)`. -/
theorem C2_target_at_cap (sw sh cap cw ch : Nat)
    (hs : sw > cap ∨ sh > cap) (hw : cap ≤ cw) (hh : cap ≤ ch) :
    chooseTarget (sw, sh) cap (cw, ch) = (sw, sh) := by
  refine if_neg ?_
  rintro ⟨-, hc | hc⟩ <;> omega

/-- Witness for the amended C2 at the counterexample's concrete input. -/
theorem C2_target_at_cap_witness :
    chooseTarget (9000, 9000) 8192 (8192, 8192) = (9000, 9000) :=
  C2_target_at_cap 9000 9000 8192 8192 8192 (Or.inl (by decide))
    (by decide) (by decide)

/-! ## C7: building from raw font bytes -/

/-- C7: `using_font_bytes` fails with the invalid-font error exactly when
parsing the bytes fails (and then produces no builder); when parsing
succeeds it returns a builder holding that single parsed font. -/
theorem C7_using_font_bytes (try_from_slice : FontParser)
    (data : List UInt8) :
    (∀ e, try_from_slice data = .error e →
      BrushBuilder.using_font_bytes try_from_slice data = .error e)
    ∧ (∀ f, try_from_slice data = .ok f →
      BrushBuilder.using_font_bytes try_from_slice data =
        .ok (BrushBuilder.using_fonts [f]))
    ∧ ((∃ e, BrushBuilder.using_font_bytes try_from_slice data = .error e) ↔
      ∃ e, try_from_slice data = .error e) := by
  refine ⟨fun e he => ?_, fun f hf => ?_, ?_⟩
  · simp [BrushBuilder.using_font_bytes, he]
  · simp [BrushBuilder.using_font_bytes, hf]
  · cases h : try_from_slice data with
    | error e => simp [BrushBuilder.using_font_bytes, h]
    | ok f => simp [BrushBuilder.using_font_bytes, h]

/-- Witness for C7: a failing parse yields the error, a successful parse
yields the one-font builder. -/
theorem C7_using_font_bytes_witness :
    BrushBuilder.using_font_bytes parseAlwaysFail [] = .error {}
    ∧ BrushBuilder.using_font_bytes parseAlwaysOk [] =
      .ok (BrushBuilder.using_fonts [0]) :=
  ⟨(C7_using_font_bytes parseAlwaysFail []).1 {} rfl,
    (C7_using_font_bytes parseAlwaysOk []).2.1 0 rfl⟩

/-! ## C9: surface resize is pure delegation -/

/-- C9: `TextBrush::resize` forwards the surface dimensions to the
`Pipeline`'s `resize` only; the glyph cache (queue and atlas dimensions) and
the pipeline's cache-texture dimensions and vertex buffer are unchanged. -/
theorem C9_resize_delegation {F : Type} (b : TextBrush F)
    (width height : Nat) (queue : GpuQueue) :
    (b.resize width height queue).inner = b.inner
    ∧ (b.resize width height queue).pipeline.texDims = b.pipeline.texDims
    ∧ (b.resize width height queue).pipeline.vertexBuffer =
      b.pipeline.vertexBuffer
    ∧ (b.resize width height queue).pipeline =
      b.pipeline.resize width height queue :=
  ⟨rfl, rfl, rfl, rfl⟩

/-! ## C10: `using_font_bytes_vec` equals `using_font_bytes` -/

/-- C10: despite its name, `using_font_bytes_vec` parses exactly one font
and wraps it in a one-element font list, agreeing with `using_font_bytes` on
every input (same success, same error). -/
theorem C10_using_font_bytes_vec_eq (try_from_slice : FontParser)
    (data : List UInt8) :
    BrushBuilder.using_font_bytes_vec try_from_slice data =
      BrushBuilder.using_font_bytes try_from_slice data
    ∧ (∀ f, try_from_slice data = .ok f →
      BrushBuilder.using_font_bytes_vec try_from_slice data =
        .ok (BrushBuilder.using_fonts [f])) := by
  refine ⟨rfl, fun f hf => ?_⟩
  simp [BrushBuilder.using_font_bytes_vec, hf]

/-- Witness for C10 on a successful parse. -/
theorem C10_using_font_bytes_vec_eq_witness :
    BrushBuilder.using_font_bytes_vec parseAlwaysOk [] =
      BrushBuilder.using_font_bytes parseAlwaysOk []
    ∧ BrushBuilder.using_font_bytes_vec parseAlwaysOk [] =
      .ok (BrushBuilder.using_fonts [0]) :=
  ⟨(C10_using_font_bytes_vec_eq parseAlwaysOk []).1,
    (C10_using_font_bytes_vec_eq parseAlwaysOk []).2 0 rfl⟩

/-! ## C3: atlas dimensions mirror pipeline texture dimensions -/

/-- Every retry resizes the cache atlas and the pipeline texture to the same
`(width, height)` (`src/brush.rs`, lines 67-68), so the loop preserves
agreement of the two dimension pairs. -/
theorem processLoop_dims_eq {F : Type} (oracle : ProcessOracle)
    (device : Device) :
    ∀ (fuel : Nat) (inner : GlyphBrush F) (pipeline : Pipeline)
      (a : BrushAction) (inner' : GlyphBrush F) (pipeline' : Pipeline),
      inner.texDims = pipeline.texDims →
      processLoop oracle device fuel inner pipeline =
        some (a, inner', pipeline') →
      inner'.texDims = pipeline'.texDims := by
  intro fuel
  induction fuel with
  | zero =>
    intro inner pipeline a inner' pipeline' heq h
    exact absurd h (by simp [processLoop])
  | succ n ih =>
    intro inner pipeline a inner' pipeline' heq h
    rw [processLoop] at h
    cases ho : oracle inner.texture_dimensions inner.queued with
    | ok action =>
      rw [ho] at h
      simp only [Option.some.injEq, Prod.mk.injEq] at h
      obtain ⟨-, hi, hp⟩ := h
      rw [← hi, ← hp]
      exact heq
    | error e =>
      cases e with
      | TextureTooSmall s =>
        rw [ho] at h
        exact ih _ _ _ _ _ rfl h

/-- C3: `build` constructs the `Pipeline` with the cache's initial texture
dimensions, and any returning `draw_queued` preserves agreement between the
cache atlas dimensions and the pipeline texture dimensions (every retry
resizes both to the same pair). -/
theorem C3_dims_invariant :
    (∀ (F : Type) (b : BrushBuilder F) (device : Device)
      (render_format width height : Nat),
      (b.build device render_format width height).inner.texture_dimensions =
        (b.build device render_format width height).pipeline.texDims)
    ∧ (∀ (F : Type) (oracle : ProcessOracle) (b : TextBrush F)
      (device : Device) (view : TextureView) (queue : GpuQueue) (fuel : Nat)
      (cb : CommandBuffer) (b' : TextBrush F),
      b.inner.texture_dimensions = b.pipeline.texDims →
      TextBrush.draw_queued oracle b device view queue fuel =
        some (cb, b') →
      b'.inner.texture_dimensions = b'.pipeline.texDims) := by
  constructor
  · intro F b device render_format width height
    rfl
  · intro F oracle b device view queue fuel cb b' heq h
    unfold TextBrush.draw_queued at h
    cases hp : processLoop oracle device fuel b.inner b.pipeline with
    | none => rw [hp] at h; exact absurd h (by simp)
    | some r =>
      obtain ⟨action, inner₁, pipeline₁⟩ := r
      rw [hp] at h
      have hd : inner₁.texDims = pipeline₁.texDims :=
        processLoop_dims_eq oracle device fuel b.inner b.pipeline
          action inner₁ pipeline₁ heq hp
      cases action with
      | Draw vertices =>
        simp only [Option.some.injEq, Prod.mk.injEq] at h
        rw [← h.2]
        exact hd
      | ReDraw =>
        simp only [Option.some.injEq, Prod.mk.injEq] at h
        rw [← h.2]
        exact hd

/-- Witness for C3: a brush with agreeing dimensions, a `draw_queued` call
returning after one `ReDraw` pass, and the preserved agreement. -/
theorem C3_dims_invariant_witness :
    brush0.inner.texture_dimensions = brush0.pipeline.texDims
    ∧ TextBrush.draw_queued okOracle brush0 dev0 () () 1 =
      some ({ drawn := [] }, brush0)
    ∧ brush0.inner.texture_dimensions = brush0.pipeline.texDims :=
  ⟨rfl, rfl,
    C3_dims_invariant.2 Nat okOracle brush0 dev0 () () 1
      { drawn := [] } brush0 rfl rfl⟩

/-! ## C6: vertex upload on `Draw`, no re-upload on `ReDraw` -/

/-- C6: after the retry loop exits, `Draw(vertices)` fully replaces the
pipeline's vertex buffer with the new vertices, while `ReDraw` leaves the
pipeline (hence the vertex buffer) untouched; in both cases a draw is issued
and its command buffer returned.  Consequently a second `draw_queued` whose
processing pass reports `ReDraw` (no intervening `queue` calls, no
atlas-size change) does not re-upload vertex data. -/
theorem C6_vertex_upload :
    (∀ (F : Type) (oracle : ProcessOracle) (b : TextBrush F)
      (device : Device) (view : TextureView) (queue : GpuQueue) (fuel : Nat)
      (v : List Vertex) (inner' : GlyphBrush F) (pip' : Pipeline),
      processLoop oracle device fuel b.inner b.pipeline =
        some (.Draw v, inner', pip') →
      TextBrush.draw_queued oracle b device view queue fuel =
        some ((pip'.update v device queue).draw device view,
          { inner := inner', pipeline := pip'.update v device queue })
      ∧ (pip'.update v device queue).vertexBuffer = v)
    ∧ (∀ (F : Type) (oracle : ProcessOracle) (b : TextBrush F)
      (device : Device) (view : TextureView) (queue : GpuQueue) (fuel : Nat)
      (inner' : GlyphBrush F) (pip' : Pipeline),
      processLoop oracle device fuel b.inner b.pipeline =
        some (.ReDraw, inner', pip') →
      TextBrush.draw_queued oracle b device view queue fuel =
        some (pip'.draw device view, { inner := inner', pipeline := pip' }))
    ∧ (∀ (F : Type) (oracle : ProcessOracle) (b : TextBrush F)
      (device : Device) (view : TextureView) (queue : GpuQueue) (fuel : Nat),
      oracle b.inner.texture_dimensions b.inner.queued = .ok .ReDraw →
      TextBrush.draw_queued oracle b device view queue (fuel + 1) =
        some (b.pipeline.draw device view,
          { inner := { b.inner with queued := [] },
            pipeline := b.pipeline })) := by
  refine ⟨?_, ?_, ?_⟩
  · intro F oracle b device view queue fuel v inner' pip' h
    refine ⟨?_, rfl⟩
    unfold TextBrush.draw_queued
    rw [h]
  · intro F oracle b device view queue fuel inner' pip' h
    unfold TextBrush.draw_queued
    rw [h]
  · intro F oracle b device view queue fuel h
    unfold TextBrush.draw_queued
    rw [processLoop, h]

/-- Witness for C6: a second call whose processing pass is `ReDraw` returns
the draw of the untouched pipeline and does not change the vertex buffer. -/
theorem C6_vertex_upload_witness :
    TextBrush.draw_queued okOracle brush0 dev0 () () 1 =
      some (brush0.pipeline.draw dev0 (),
        { inner := { brush0.inner with queued := [] },
          pipeline := brush0.pipeline }) :=
  C6_vertex_upload.2.2 Nat okOracle brush0 dev0 () () 0 rfl

/-! ## C8: no error escapes `draw_queued` -/

/-- C8: `draw_queued` never propagates an error: a `TextureTooSmall` report
is fully absorbed as one more retry iteration (the call on `fuel + 1`
iterations equals the call on the resized brush with `fuel` iterations), and
whenever the processing pass succeeds the call returns a command buffer. -/
theorem C8_no_error_escape :
    (∀ (F : Type) (oracle : ProcessOracle) (b : TextBrush F)
      (device : Device) (view : TextureView) (queue : GpuQueue) (fuel : Nat)
      (s : Nat × Nat),
      oracle b.inner.texture_dimensions b.inner.queued =
        .error (.TextureTooSmall s) →
      TextBrush.draw_queued oracle b device view queue (fuel + 1) =
        TextBrush.draw_queued oracle
          { inner := b.inner.resize_texture
              (chooseTarget s device.max_texture_dimension_2d
                b.inner.texture_dimensions).1
              (chooseTarget s device.max_texture_dimension_2d
                b.inner.texture_dimensions).2,
            pipeline := b.pipeline.resize_texture device
              (chooseTarget s device.max_texture_dimension_2d
                b.inner.texture_dimensions).1
              (chooseTarget s device.max_texture_dimension_2d
                b.inner.texture_dimensions).2 }
          device view queue fuel)
    ∧ (∀ (F : Type) (oracle : ProcessOracle) (b : TextBrush F)
      (device : Device) (view : TextureView) (queue : GpuQueue) (fuel : Nat)
      (a : BrushAction),
      oracle b.inner.texture_dimensions b.inner.queued = .ok a →
      ∃ cb b', TextBrush.draw_queued oracle b device view queue (fuel + 1) =
        some (cb, b')) := by
  constructor
  · intro F oracle b device view queue fuel s h
    unfold TextBrush.draw_queued
    rw [processLoop, h]
  · intro F oracle b device view queue fuel a h
    cases a with
    | Draw v =>
      refine ⟨(b.pipeline.update v device queue).draw device view,
        { inner := { b.inner with queued := [] },
          pipeline := b.pipeline.update v device queue }, ?_⟩
      unfold TextBrush.draw_queued
      rw [processLoop, h]
    | ReDraw =>
      refine ⟨b.pipeline.draw device view,
        { inner := { b.inner with queued := [] },
          pipeline := b.pipeline }, ?_⟩
      unfold TextBrush.draw_queued
      rw [processLoop, h]

/-- Witness for C8: a `TextureTooSmall` report at `brush0` under `hugeOracle`
is absorbed as a retry on the resized brush. -/
theorem C8_no_error_escape_witness :
    TextBrush.draw_queued hugeOracle brush0 dev0 () () 1 =
      TextBrush.draw_queued hugeOracle brushAtCap dev0 () () 0 :=
  C8_no_error_escape.1 Nat hugeOracle brush0 dev0 () () 0 (9000, 9000) rfl

/-! ## C4: termination of the retry loop -/

/-- Once the atlas is at (or above) the `dev0` cap in both dimensions, a
cache that keeps demanding `(9000, 9000)` makes the retry loop spin forever:
the clamp no longer applies, the atlas is resized to `(9000, 9000)` and
stays there, and the loop never exits. -/
theorem processLoop_huge_none :
    ∀ (fuel : Nat) (inner : GlyphBrush Nat) (pip : Pipeline),
      8192 ≤ inner.texDims.1 → 8192 ≤ inner.texDims.2 →
      processLoop hugeOracle dev0 fuel inner pip = none := by
  intro fuel
  induction fuel with
  | zero => intro inner pip h1 h2; rfl
  | succ n ih =>
    intro inner pip h1 h2
    rw [processLoop]
    have hct : chooseTarget (9000, 9000) dev0.max_texture_dimension_2d
        inner.texture_dimensions = (9000, 9000) := by
      refine if_neg ?_
      rintro ⟨-, hc | hc⟩ <;>
        simp only [dev0, GlyphBrush.texture_dimensions] at hc <;> omega
    show processLoop hugeOracle dev0 n
      (inner.resize_texture
        (chooseTarget (9000, 9000) dev0.max_texture_dimension_2d
          inner.texture_dimensions).1
        (chooseTarget (9000, 9000) dev0.max_texture_dimension_2d
          inner.texture_dimensions).2) _ = none
    rw [hct]
    exact ih _ _ (by simp [GlyphBrush.resize_texture])
      (by simp [GlyphBrush.resize_texture])

/-- C4 counterexample: the retry loop does not terminate for every
execution.  With the atlas already at the `dev0` hardware ceiling
`(8192, 8192)` and a cache that keeps reporting `TextureTooSmall` with
suggestion `(9000, 9000)`, no number of iterations makes `draw_queued`
return. -/
theorem C4_counterexample :
    ¬ DrawTerminates hugeOracle brushAtCap dev0 () () := by
  rintro ⟨fuel, r, h⟩
  unfold TextBrush.draw_queued at h
  rw [processLoop_huge_none fuel brushAtCap.inner brushAtCap.pipeline
    (by decide) (by decide)] at h
  exact absurd h (by simp)

/-- C4 amended: the retry loop terminates whenever every `TextureTooSmall`
report strictly grows the total suggested dimensions while staying within
the device cap, and processing succeeds once the total atlas dimensions
reach some bound `B`; `B + 1` iterations then always suffice. -/
theorem processLoop_growth_total {F : Type} (oracle : ProcessOracle)
    (device : Device) (B : Nat)
    (hgrow : ∀ (d : Nat × Nat) (q : List TextSection) (s : Nat × Nat),
      oracle d q = .error (.TextureTooSmall s) →
      d.1 + d.2 < s.1 + s.2 ∧ s.1 ≤ device.max_texture_dimension_2d
        ∧ s.2 ≤ device.max_texture_dimension_2d)
    (hsucc : ∀ (d : Nat × Nat) (q : List TextSection),
      B ≤ d.1 + d.2 → ∃ a, oracle d q = .ok a) :
    ∀ (n : Nat) (inner : GlyphBrush F) (pip : Pipeline),
      B ≤ inner.texDims.1 + inner.texDims.2 + n →
      (processLoop oracle device (n + 1) inner pip).isSome := by
  intro n
  induction n with
  | zero =>
    intro inner pip hB
    obtain ⟨a, ha⟩ := hsucc inner.texDims inner.queued (by omega)
    rw [processLoop]
    rw [show inner.texture_dimensions = inner.texDims from rfl, ha]
    rfl
  | succ n ih =>
    intro inner pip hB
    rw [processLoop]
    cases ho : oracle inner.texture_dimensions inner.queued with
    | ok a => rfl
    | error e =>
      cases e with
      | TextureTooSmall s =>
        obtain ⟨hlt, hs1, hs2⟩ := hgrow _ _ _ ho
        have hct : chooseTarget s device.max_texture_dimension_2d
            inner.texture_dimensions = s := by
          refine if_neg ?_
          rintro ⟨h1 | h1, -⟩ <;> omega
        show (processLoop oracle device (n + 1)
          (inner.resize_texture
            (chooseTarget s device.max_texture_dimension_2d
              inner.texture_dimensions).1
            (chooseTarget s device.max_texture_dimension_2d
              inner.texture_dimensions).2) _).isSome
        rw [hct]
        refine ih _ _ ?_
        simp only [GlyphBrush.resize_texture]
        simp only [GlyphBrush.texture_dimensions] at hlt
        omega

/-- C4 amended (caller-level): under the growth-and-eventual-success
hypotheses on the cache, every `draw_queued` call terminates. -/
theorem C4_amended_terminates {F : Type} (oracle : ProcessOracle)
    (device : Device) (B : Nat)
    (hgrow : ∀ (d : Nat × Nat) (q : List TextSection) (s : Nat × Nat),
      oracle d q = .error (.TextureTooSmall s) →
      d.1 + d.2 < s.1 + s.2 ∧ s.1 ≤ device.max_texture_dimension_2d
        ∧ s.2 ≤ device.max_texture_dimension_2d)
    (hsucc : ∀ (d : Nat × Nat) (q : List TextSection),
      B ≤ d.1 + d.2 → ∃ a, oracle d q = .ok a)
    (b : TextBrush F) (view : TextureView) (queue : GpuQueue) :
    DrawTerminates oracle b device view queue := by
  have h := processLoop_growth_total oracle device B hgrow hsucc B
    b.inner b.pipeline (by omega)
  refine ⟨B + 1, ?_⟩
  cases hp : processLoop oracle device (B + 1) b.inner b.pipeline with
  | none => rw [hp] at h; exact absurd h (by simp)
  | some r =>
    obtain ⟨action, inner₁, pipeline₁⟩ := r
    cases action with
    | Draw v =>
      refine ⟨((pipeline₁.update v device queue).draw device view,
        { inner := inner₁, pipeline := pipeline₁.update v device queue }), ?_⟩
      unfold TextBrush.draw_queued
      rw [hp]
    | ReDraw =>
      refine ⟨(pipeline₁.draw device view,
        { inner := inner₁, pipeline := pipeline₁ }), ?_⟩
      unfold TextBrush.draw_queued
      rw [hp]

/-- Witness for the amended C4: under `growOracle` (suggestions grow toward
`(512, 512)`, success from total dimensions `1024` on) every call on
`brush0` terminates. -/
theorem C4_amended_terminates_witness :
    DrawTerminates growOracle brush0 dev0 () () := by
  refine C4_amended_terminates growOracle dev0 1024 ?_ ?_ brush0 () ()
  · intro d q s h
    unfold growOracle at h
    split at h
    · exact absurd h (by simp)
    · rename_i hc
      simp only [Except.error.injEq, BrushErr.TextureTooSmall.injEq] at h
      rw [← h]
      refine ⟨by omega, by simp [dev0], by simp [dev0]⟩
  · intro d q hd
    refine ⟨.ReDraw, ?_⟩
    unfold growOracle
    rw [if_pos hd]

/-! ## C5: monotonicity across successive retries -/

/-- A chosen resize target computed from a suggestion at least as large as
the dimensions it was computed from is never above the cap in one dimension
while below it in the other. -/
theorem chooseTarget_balanced (s : Nat × Nat) (cap : Nat) (d : Nat × Nat)
    (h : dimLe d s) :
    ((chooseTarget s cap d).1 ≤ cap ∧ (chooseTarget s cap d).2 ≤ cap)
    ∨ (cap ≤ (chooseTarget s cap d).1 ∧ cap ≤ (chooseTarget s cap d).2) := by
  obtain ⟨h1, h2⟩ := h
  unfold chooseTarget
  split
  · left
    exact ⟨le_refl cap, le_refl cap⟩
  · rename_i hn
    simp only [not_and, not_or, not_lt] at hn
    by_cases hx : s.1 > cap ∨ s.2 > cap
    · obtain ⟨hd1, hd2⟩ := hn hx
      right
      exact ⟨le_trans hd1 h1, le_trans hd2 h2⟩
    · left
      simp only [gt_iff_lt, not_or, not_lt] at hx
      exact hx

/-- A balanced current dimension pair is componentwise at most the next
chosen resize target, provided the next suggestion is at least the current
dimensions. -/
theorem dimLe_chooseTarget (s : Nat × Nat) (cap : Nat) (t : Nat × Nat)
    (hbal : (t.1 ≤ cap ∧ t.2 ≤ cap) ∨ (cap ≤ t.1 ∧ cap ≤ t.2))
    (h : dimLe t s) : dimLe t (chooseTarget s cap t) := by
  unfold chooseTarget
  split
  · rename_i hc
    obtain ⟨-, hc2⟩ := hc
    unfold dimLe
    rcases hbal with hb | hb
    · exact hb
    · rcases hc2 with hc2 | hc2 <;> omega
  · exact h

/-- C5: within one `draw_queued` call, if the cache's suggestions are always
at least the dimensions they are reported against (the external engine asks
to grow, never to shrink), then the successive resize targets chosen by the
retry loop are componentwise non-decreasing: each retry's dimensions are at
least those in force after the previous retry. -/
theorem C5_retry_monotone {F : Type} (oracle : ProcessOracle)
    (device : Device)
    (hgrow : ∀ (d : Nat × Nat) (q : List TextSection) (s : Nat × Nat),
      oracle d q = .error (.TextureTooSmall s) → dimLe d s) :
    ∀ (fuel : Nat) (inner : GlyphBrush F),
      List.Chain' dimLe (retryTargets oracle device fuel inner) := by
  intro fuel
  induction fuel with
  | zero =>
    intro inner
    simp [retryTargets]
  | succ n ih =>
    intro inner
    rw [retryTargets]
    cases ho : oracle inner.texture_dimensions inner.queued with
    | ok a => exact List.chain'_nil
    | error e =>
      cases e with
      | TextureTooSmall s =>
        rw [List.chain'_cons']
        refine ⟨?_, ih _⟩
        intro t2 ht2
        set cap := device.max_texture_dimension_2d with hcap
        set wh := chooseTarget s cap inner.texture_dimensions with hwh
        have hbal : (wh.1 ≤ cap ∧ wh.2 ≤ cap)
            ∨ (cap ≤ wh.1 ∧ cap ≤ wh.2) :=
          chooseTarget_balanced s cap inner.texture_dimensions
            (hgrow _ _ _ ho)
        cases n with
        | zero => exact absurd ht2 (by simp [retryTargets])
        | succ m =>
          rw [retryTargets] at ht2
          cases ho2 : oracle (inner.resize_texture wh.1 wh.2).texture_dimensions
              (inner.resize_texture wh.1 wh.2).queued with
          | ok a => rw [ho2] at ht2; exact absurd ht2 (by simp)
          | error e2 =>
            cases e2 with
            | TextureTooSmall s2 =>
              rw [ho2] at ht2
              simp only [List.head?_cons, Option.mem_def,
                Option.some.injEq] at ht2
              have hdims : (inner.resize_texture wh.1 wh.2).texture_dimensions
                  = wh := rfl
              rw [hdims] at ho2
              have hle : dimLe wh s2 := hgrow _ _ _ ho2
              rw [← ht2, hdims]
              exact dimLe_chooseTarget s2 cap wh hbal hle

/-- Witness for C5: under `doubleOracle` (which always suggests doubled
dimensions) the retry targets from `brush0` form a monotone chain. -/
theorem C5_retry_monotone_witness :
    List.Chain' dimLe (retryTargets doubleOracle dev0 5 brush0.inner) := by
  refine C5_retry_monotone doubleOracle dev0 ?_ 5 brush0.inner
  intro d q s h
  unfold doubleOracle at h
  split at h
  · exact absurd h (by simp)
  · simp only [Except.error.injEq, BrushErr.TextureTooSmall.injEq] at h
    rw [← h]
    exact ⟨by omega, by omega⟩
